import Mathlib

/-!
Verification of the rate limiter of the Govee Light Automation integration
(`custom_components/govee_light_automation/rate_limiter.py` and `const.py`).

The Python class `GoveeRateLimiter` holds three in-memory fields
(`last_reset_date`, `request_count`, `device_count`) and persists them as a
JSON record.  We embed it shallowly: the in-memory fields become the
structure `RateState`, the JSON file becomes `Storage`, and every method
becomes a total Lean function threading `RateState × World` explicitly.
The current calendar date (`datetime.now().strftime("%Y-%m-%d")`) is passed
as an explicit `today : String` argument.  Python float arithmetic in
`get_usage_percentage` and `get_adaptive_polling_interval` is modelled over
`ℚ`; `int()` on the (non-negative) clamped interval is `Int.floor`.
Exceptions raised by file I/O are modelled by the `Storage.unreadable`
constructor (reads) and the `writeFails` flag (writes); the Python code
catches them all, and correspondingly every Lean function here is total.
-/

/-- `DAILY_REQUEST_LIMIT = 10000` from `const.py`. -/
def DAILY_REQUEST_LIMIT : ℤ := 10000

/-- `SAFE_REQUEST_LIMIT = 9000` from `const.py` ("Stay under 90% of limit"). -/
def SAFE_REQUEST_LIMIT : ℤ := 9000

/-- `REQUESTS_PER_DEVICE_PER_DAY = 1440` from `const.py`. -/
def REQUESTS_PER_DEVICE_PER_DAY : ℤ := 1440

/-- `MIN_POLLING_INTERVAL = 60` from `const.py`. -/
def MIN_POLLING_INTERVAL : ℤ := 60

/-- `MAX_POLLING_INTERVAL = 300` from `const.py`. -/
def MAX_POLLING_INTERVAL : ℤ := 300

/-- `DEFAULT_POLLING_INTERVAL = 120` from `const.py`. -/
def DEFAULT_POLLING_INTERVAL : ℤ := 120

/-- The in-memory fields of `GoveeRateLimiter`.  `last_reset_date` is an
`Option String` because `data.get(RATE_LIMIT_LAST_RESET_KEY)` can yield
`None` when the key is missing from the stored JSON. -/
structure RateState where
  last_reset_date : Option String
  request_count : ℤ
  device_count : ℤ
deriving Repr, DecidableEq

/-- The JSON record written by `_save_rate_limit_data`: the three keys, each
possibly absent when the file was produced elsewhere (`data.get` with
defaults `None`, `0`, `0`). -/
structure StoredData where
  last_reset_date : Option String
  request_count : Option ℤ
  device_count : Option ℤ
deriving Repr, DecidableEq

/-- The state of the storage file `govee_rate_limit.json`:
absent (`os.path.exists` false), unreadable (open/`json.load` raises), or
holding a readable JSON record. -/
inductive Storage where
  | absent : Storage
  | unreadable : Storage
  | stored : StoredData → Storage
deriving Repr, DecidableEq

/-- The file system as the rate limiter sees it: the storage content plus
whether a write attempt raises (caught and logged by the Python code). -/
structure World where
  storage : Storage
  writeFails : Bool
deriving Repr, DecidableEq

/-- `_save_rate_limit_data`: writes the three fields as a JSON record;
any exception is caught and logged, leaving the file as it was. -/
def _save_rate_limit_data (s : RateState) (w : World) : World :=
  if w.writeFails then w
  else { w with storage :=
    Storage.stored ⟨s.last_reset_date, some s.request_count, some s.device_count⟩ }

/-- `_reset_rate_limit_data`: sets `last_reset_date` to today,
`request_count = 0`, `device_count = 0`, then saves. -/
def _reset_rate_limit_data (today : String) (w : World) : RateState × World :=
  let s : RateState := ⟨some today, 0, 0⟩
  (s, _save_rate_limit_data s w)

/-- `_load_rate_limit_data` (run by `__init__`): if the file exists, read it
and take each key with `data.get` (defaults `None`, `0`, `0`); if it does
not exist, or reading raises, fall back to `_reset_rate_limit_data`. -/
def _load_rate_limit_data (today : String) (w : World) : RateState × World :=
  match w.storage with
  | Storage.stored d =>
      (⟨d.last_reset_date, d.request_count.getD 0, d.device_count.getD 0⟩, w)
  | Storage.absent => _reset_rate_limit_data today w
  | Storage.unreadable => _reset_rate_limit_data today w

/-- `_check_and_reset_daily`: if `last_reset_date` differs from today's
date, reset (which zeroes both counters and saves). -/
def _check_and_reset_daily (today : String) (s : RateState) (w : World) :
    RateState × World :=
  if s.last_reset_date ≠ some today then _reset_rate_limit_data today w
  else (s, w)

/-- `increment_request_count`: roll the day if needed, add 1 to
`request_count`, save. -/
def increment_request_count (today : String) (s : RateState) (w : World) :
    RateState × World :=
  let p := _check_and_reset_daily today s w
  let s' := { p.1 with request_count := p.1.request_count + 1 }
  (s', _save_rate_limit_data s' p.2)

/-- `update_device_count`: roll the day if needed; if the given count
differs from the stored one, update it and save. -/
def update_device_count (today : String) (n : ℤ) (s : RateState) (w : World) :
    RateState × World :=
  let p := _check_and_reset_daily today s w
  if p.1.device_count ≠ n then
    let s' := { p.1 with device_count := n }
    (s', _save_rate_limit_data s' p.2)
  else p

/-- `get_remaining_requests`: roll the day if needed, then
`max(0, SAFE_REQUEST_LIMIT - request_count)`. -/
def get_remaining_requests (today : String) (s : RateState) (w : World) :
    ℤ × RateState × World :=
  let p := _check_and_reset_daily today s w
  (max 0 (SAFE_REQUEST_LIMIT - p.1.request_count), p.1, p.2)

/-- `get_usage_percentage`: roll the day if needed, then
`(request_count / SAFE_REQUEST_LIMIT) * 100` (Python float division,
modelled over `ℚ`). -/
def get_usage_percentage (today : String) (s : RateState) (w : World) :
    ℚ × RateState × World :=
  let p := _check_and_reset_daily today s w
  (((p.1.request_count : ℚ) / (SAFE_REQUEST_LIMIT : ℚ)) * 100, p.1, p.2)

/-- `can_make_request`: `get_remaining_requests() > 0`. -/
def can_make_request (today : String) (s : RateState) (w : World) :
    Bool × RateState × World :=
  let r := get_remaining_requests today s w
  (decide (r.1 > 0), r.2)

/-- `get_adaptive_polling_interval`: roll the day; default when no devices;
`MAX_POLLING_INTERVAL` when no remaining quota; otherwise
`int(clamp(86400 / (remaining / device_count), MIN, MAX))`, with the
same guard structure as the Python code (including the re-entrant call to
`get_remaining_requests` and the final fall-through default). -/
def get_adaptive_polling_interval (today : String) (s : RateState) (w : World) :
    ℤ × RateState × World :=
  let p := _check_and_reset_daily today s w
  if p.1.device_count = 0 then (DEFAULT_POLLING_INTERVAL, p.1, p.2)
  else
    let r := get_remaining_requests today p.1 p.2
    let remaining := r.1
    if remaining ≤ 0 then (MAX_POLLING_INTERVAL, r.2)
    else if r.2.1.device_count > 0 then
      let requests_per_device_per_day : ℚ :=
        (remaining : ℚ) / (r.2.1.device_count : ℚ)
      if requests_per_device_per_day > 0 then
        let optimal_interval : ℚ := 86400 / requests_per_device_per_day
        let clamped : ℚ := max (MIN_POLLING_INTERVAL : ℚ)
          (min (MAX_POLLING_INTERVAL : ℚ) optimal_interval)
        (⌊clamped⌋, r.2)
      else (DEFAULT_POLLING_INTERVAL, r.2)
    else (DEFAULT_POLLING_INTERVAL, r.2)

/-- The record returned by `get_rate_limit_status`. -/
structure Status where
  request_count : ℤ
  device_count : ℤ
  remaining_requests : ℤ
  usage_percentage : ℚ
  can_make_request : Bool
  adaptive_polling_interval : ℤ
  last_reset_date : Option String
deriving Repr, DecidableEq

/-- `get_rate_limit_status`: roll the day, then assemble the status record,
evaluating the getters in the order the Python dict literal does. -/
def get_rate_limit_status (today : String) (s : RateState) (w : World) :
    Status × RateState × World :=
  let p := _check_and_reset_daily today s w
  let rc := p.1.request_count
  let dc := p.1.device_count
  let r := get_remaining_requests today p.1 p.2
  let u := get_usage_percentage today r.2.1 r.2.2
  let c := can_make_request today u.2.1 u.2.2
  let a := get_adaptive_polling_interval today c.2.1 c.2.2
  ({ request_count := rc, device_count := dc, remaining_requests := r.1,
     usage_percentage := u.1, can_make_request := c.1,
     adaptive_polling_interval := a.1,
     last_reset_date := a.2.1.last_reset_date }, a.2)

/-- Modelled from the spec (section 4.2 and claim C2): the adaptive interval
as a pure function of QuotaState — default when `device_count = 0`,
`MAX_INTERVAL` when `remaining ≤ 0`, otherwise
`int(clamp(86400 / (remaining / device_count), 60, 300))`.  Used only to be
compared against `get_adaptive_polling_interval` from the source. -/
def specAdaptiveInterval (s : RateState) : ℤ :=
  if s.device_count = 0 then DEFAULT_POLLING_INTERVAL
  else
    let remaining : ℤ := max 0 (SAFE_REQUEST_LIMIT - s.request_count)
    if remaining ≤ 0 then MAX_POLLING_INTERVAL
    else ⌊max (MIN_POLLING_INTERVAL : ℚ) (min (MAX_POLLING_INTERVAL : ℚ)
          (86400 / ((remaining : ℚ) / (s.device_count : ℚ))))⌋


/-- The value of the adaptive polling interval as a pure function of the
(post-rollover) counters, mirroring the guard structure of
`get_adaptive_polling_interval`. -/
def adaptive_interval_value (rc dc : ℤ) : ℤ :=
  if dc = 0 then DEFAULT_POLLING_INTERVAL
  else
    let remaining : ℤ := max 0 (SAFE_REQUEST_LIMIT - rc)
    if remaining ≤ 0 then MAX_POLLING_INTERVAL
    else if dc > 0 then
      if (remaining : ℚ) / (dc : ℚ) > 0 then
        ⌊max (MIN_POLLING_INTERVAL : ℚ) (min (MAX_POLLING_INTERVAL : ℚ)
          (86400 / ((remaining : ℚ) / (dc : ℚ))))⌋
      else DEFAULT_POLLING_INTERVAL
    else DEFAULT_POLLING_INTERVAL

/-! ## Helper lemmas -/

/-- When the stored date already is today, the rollover check is a no-op. -/
lemma check_of_eq {today : String} {s : RateState} {w : World}
    (h : s.last_reset_date = some today) :
    _check_and_reset_daily today s w = (s, w) := by
  simp [_check_and_reset_daily, h]

/-- When the stored date differs from today, the rollover check resets. -/
lemma check_of_ne {today : String} {s : RateState} {w : World}
    (h : s.last_reset_date ≠ some today) :
    _check_and_reset_daily today s w = _reset_rate_limit_data today w := by
  simp [_check_and_reset_daily, h]

/-- The reset state is `⟨some today, 0, 0⟩`. -/
lemma reset_fst (today : String) (w : World) :
    (_reset_rate_limit_data today w).1 = ⟨some today, 0, 0⟩ := rfl

/-- After the rollover check, the stored date is today. -/
lemma check_fst_date (today : String) (s : RateState) (w : World) :
    (_check_and_reset_daily today s w).1.last_reset_date = some today := by
  by_cases h : s.last_reset_date = some today
  · rw [check_of_eq h]; exact h
  · rw [check_of_ne h]; rfl

/-- The rollover check is idempotent on the state it returns. -/
lemma check_idem (today : String) (s : RateState) (w w' : World) :
    _check_and_reset_daily today (_check_and_reset_daily today s w).1 w' =
      ((_check_and_reset_daily today s w).1, w') :=
  check_of_eq (check_fst_date today s w)

/-- `get_remaining_requests` on an up-to-date state. -/
lemma remaining_of_eq {today : String} {s : RateState} {w : World}
    (h : s.last_reset_date = some today) :
    get_remaining_requests today s w =
      (max 0 (SAFE_REQUEST_LIMIT - s.request_count), s, w) := by
  simp [get_remaining_requests, check_of_eq h]

/-- `get_usage_percentage` on an up-to-date state. -/
lemma usage_of_eq {today : String} {s : RateState} {w : World}
    (h : s.last_reset_date = some today) :
    get_usage_percentage today s w =
      (((s.request_count : ℚ) / (SAFE_REQUEST_LIMIT : ℚ)) * 100, s, w) := by
  simp [get_usage_percentage, check_of_eq h]

/-- `can_make_request` on an up-to-date state. -/
lemma can_make_of_eq {today : String} {s : RateState} {w : World}
    (h : s.last_reset_date = some today) :
    can_make_request today s w =
      (decide (max 0 (SAFE_REQUEST_LIMIT - s.request_count) > 0), s, w) := by
  simp [can_make_request, remaining_of_eq h]

/-- `get_adaptive_polling_interval` on an up-to-date state returns
`adaptive_interval_value` of its counters and leaves the state alone. -/
lemma interval_of_eq {today : String} {s : RateState} {w : World}
    (h : s.last_reset_date = some today) :
    get_adaptive_polling_interval today s w =
      (adaptive_interval_value s.request_count s.device_count, s, w) := by
  simp only [get_adaptive_polling_interval, adaptive_interval_value,
    check_of_eq h, remaining_of_eq h]
  by_cases h0 : s.device_count = 0 <;> simp [h0] <;> split_ifs <;> rfl

example : adaptive_interval_value 0 10 = 96 := by
  norm_num [adaptive_interval_value, SAFE_REQUEST_LIMIT, MIN_POLLING_INTERVAL,
    MAX_POLLING_INTERVAL]

example : adaptive_interval_value 8999 1 = 300 := by
  norm_num [adaptive_interval_value, SAFE_REQUEST_LIMIT, MIN_POLLING_INTERVAL,
    MAX_POLLING_INTERVAL]

/-! ## Additional state-threading lemmas -/

/-- `get_adaptive_polling_interval` leaves the state at the post-rollover
state, whatever branch it takes. -/
lemma interval_state (today : String) (s : RateState) (w : World) :
    (get_adaptive_polling_interval today s w).2 =
      _check_and_reset_daily today s w := by
  have h := check_fst_date today s w
  simp only [get_adaptive_polling_interval, remaining_of_eq h]
  split_ifs <;> rfl

/-- `get_rate_limit_status` leaves the state at the post-rollover state. -/
lemma status_state (today : String) (s : RateState) (w : World) :
    (get_rate_limit_status today s w).2 =
      _check_and_reset_daily today s w := by
  have h := check_fst_date today s w
  simp only [get_rate_limit_status, remaining_of_eq h, usage_of_eq h,
    can_make_of_eq h, interval_of_eq h]

/-! ## Claims -/

/-- C1, as stated, is false: the daily rollover does NOT leave
`device_count` unchanged.  At `last_reset_date = "2024-01-01"`,
`request_count = 500`, `device_count = 7`, calling
`get_remaining_requests` on `"2024-01-02"` resets the state to
`⟨some "2024-01-02", 0, 0⟩`: `device_count` becomes 0, not 7. -/
theorem C1_counterexample :
    (get_remaining_requests "2024-01-02" ⟨some "2024-01-01", 500, 7⟩
        ⟨Storage.absent, false⟩).2.1 = ⟨some "2024-01-02", 0, 0⟩
    ∧ ((get_remaining_requests "2024-01-02" ⟨some "2024-01-01", 500, 7⟩
        ⟨Storage.absent, false⟩).2.1.device_count ≠ 7) := by
  constructor <;>
    simp [get_remaining_requests, _check_and_reset_daily,
      _reset_rate_limit_data, _save_rate_limit_data]

/-- C1 (amended): if `last_reset_date` differs from today's date, the next
call to any tracker method resets `request_count` to 0, updates
`last_reset_date` to today, AND also resets `device_count` to 0 (the code's
`_reset_rate_limit_data` zeroes both counters). -/
theorem C1_amended (today : String) (s : RateState) (w : World) (n : ℤ)
    (h : s.last_reset_date ≠ some today) :
    (_check_and_reset_daily today s w).1 = ⟨some today, 0, 0⟩
    ∧ (get_remaining_requests today s w).2.1 = ⟨some today, 0, 0⟩
    ∧ (get_usage_percentage today s w).2.1 = ⟨some today, 0, 0⟩
    ∧ (can_make_request today s w).2.1 = ⟨some today, 0, 0⟩
    ∧ (get_adaptive_polling_interval today s w).2.1 = ⟨some today, 0, 0⟩
    ∧ (get_rate_limit_status today s w).2.1 = ⟨some today, 0, 0⟩
    ∧ (increment_request_count today s w).1 = ⟨some today, 1, 0⟩
    ∧ (update_device_count today n s w).1 = ⟨some today, 0, n⟩ := by
  have hc : _check_and_reset_daily today s w = _reset_rate_limit_data today w :=
    check_of_ne h
  refine ⟨by rw [hc]; rfl, ?_, ?_, ?_, ?_, ?_, ?_, ?_⟩
  · simp [get_remaining_requests, hc, _reset_rate_limit_data]
  · simp [get_usage_percentage, hc, _reset_rate_limit_data]
  · simp [can_make_request, get_remaining_requests, hc, _reset_rate_limit_data]
  · rw [interval_state, hc]; rfl
  · rw [status_state, hc]; rfl
  · simp [increment_request_count, hc, _reset_rate_limit_data]
  · by_cases hn : n = 0
    · subst hn; simp [update_device_count, hc, _reset_rate_limit_data]
    · have h0 : ¬ ((0:ℤ) = n) := fun hh => hn hh.symm
      simp [update_device_count, hc, _reset_rate_limit_data, h0, hn]

/-- C1 witness: the amended theorem at a concrete stale state. -/
theorem C1_witness :
    (some "2024-01-01" : Option String) ≠ some "2024-01-02"
    ∧ (_check_and_reset_daily "2024-01-02" ⟨some "2024-01-01", 500, 7⟩
        ⟨Storage.absent, false⟩).1 = ⟨some "2024-01-02", 0, 0⟩ :=
  ⟨by decide,
   (C1_amended "2024-01-02" ⟨some "2024-01-01", 500, 7⟩
     ⟨Storage.absent, false⟩ 3 (by decide)).1⟩

/-- C3, as stated, is false: `get_usage_percentage` returns a percentage,
not a ratio.  At `request_count = 4500`, `SAFE_REQUEST_LIMIT = 9000` it
returns `50.0`, not `0.5`. -/
theorem C3_counterexample :
    (get_usage_percentage "2024-01-02" ⟨some "2024-01-02", 4500, 3⟩
        ⟨Storage.absent, false⟩).1 = 50
    ∧ (get_usage_percentage "2024-01-02" ⟨some "2024-01-02", 4500, 3⟩
        ⟨Storage.absent, false⟩).1 ≠ 1 / 2 := by
  constructor <;>
    norm_num [get_usage_percentage, _check_and_reset_daily, SAFE_REQUEST_LIMIT]

/-- C3 (amended): `get_usage_percentage` returns
`(request_count / SAFE_REQUEST_LIMIT) * 100` — a percentage; for
`request_count = 4500` it returns 50.0, and it exceeds 100.0 (not 1.0)
whenever `request_count > SAFE_REQUEST_LIMIT`. -/
theorem C3_amended (today : String) (s : RateState) (w : World)
    (h : s.last_reset_date = some today) :
    (get_usage_percentage today s w).1 =
      ((s.request_count : ℚ) / (SAFE_REQUEST_LIMIT : ℚ)) * 100
    ∧ (SAFE_REQUEST_LIMIT < s.request_count →
        100 < (get_usage_percentage today s w).1) := by
  rw [usage_of_eq h]
  refine ⟨rfl, fun hgt => ?_⟩
  have h1 : (1 : ℚ) < (s.request_count : ℚ) / (SAFE_REQUEST_LIMIT : ℚ) := by
    rw [lt_div_iff (by norm_num [SAFE_REQUEST_LIMIT])]
    rw [one_mul]
    exact_mod_cast hgt
  calc (100 : ℚ) = 1 * 100 := by norm_num
    _ < ((s.request_count : ℚ) / (SAFE_REQUEST_LIMIT : ℚ)) * 100 := by
        exact (mul_lt_mul_right (by norm_num)).mpr h1

/-- C3 witness: the amended theorem at `request_count = 4500`. -/
theorem C3_witness :
    (some "2024-01-02" : Option String) = some "2024-01-02"
    ∧ (get_usage_percentage "2024-01-02" ⟨some "2024-01-02", 4500, 3⟩
        ⟨Storage.absent, false⟩).1 =
      ((4500 : ℚ) / (SAFE_REQUEST_LIMIT : ℚ)) * 100 :=
  ⟨rfl, (C3_amended "2024-01-02" ⟨some "2024-01-02", 4500, 3⟩
    ⟨Storage.absent, false⟩ rfl).1⟩

/-- C4, as stated, is false for storage that is readable but structurally
invalid: loading a JSON record with all three keys missing (e.g. `{}`)
leaves `last_reset_date = None` — not today's date — and performs no write,
whereas the claim requires a fresh reset that is immediately persisted. -/
theorem C4_counterexample :
    (_load_rate_limit_data "2024-01-02"
        ⟨Storage.stored ⟨none, none, none⟩, false⟩).1 = ⟨none, 0, 0⟩
    ∧ (_load_rate_limit_data "2024-01-02"
        ⟨Storage.stored ⟨none, none, none⟩, false⟩).1.last_reset_date ≠
        some "2024-01-02"
    ∧ (_load_rate_limit_data "2024-01-02"
        ⟨Storage.stored ⟨none, none, none⟩, false⟩).2 =
        ⟨Storage.stored ⟨none, none, none⟩, false⟩ := by
  refine ⟨rfl, by decide, rfl⟩

/-- C4 (amended): `_load_rate_limit_data` is total (never raises).  When
storage is absent or unreadable it falls back to the fresh state
`⟨today, 0, 0⟩` and immediately persists it (when the write succeeds).
When the storage holds readable JSON — even structurally invalid JSON —
each field is taken individually with defaults (`None` for the date, 0 for
the counters), with no reset and no write. -/
theorem C4_amended (today : String) (w : World) (d : StoredData)
    (h : w.storage = Storage.absent ∨ w.storage = Storage.unreadable) :
    (_load_rate_limit_data today w).1 = ⟨some today, 0, 0⟩
    ∧ (w.writeFails = false → (_load_rate_limit_data today w).2 =
        ⟨Storage.stored ⟨some today, some 0, some 0⟩, false⟩)
    ∧ (_load_rate_limit_data today ⟨Storage.stored d, w.writeFails⟩).1 =
        ⟨d.last_reset_date, d.request_count.getD 0, d.device_count.getD 0⟩
    ∧ (_load_rate_limit_data today ⟨Storage.stored d, w.writeFails⟩).2 =
        ⟨Storage.stored d, w.writeFails⟩ := by
  obtain ⟨st, wf⟩ := w
  rcases h with h | h <;> subst h <;>
    refine ⟨rfl, fun hf => ?_, rfl, rfl⟩ <;>
    · subst hf
      rfl

/-- C4 witness: absent storage with a succeeding write. -/
theorem C4_witness :
    ((⟨Storage.absent, false⟩ : World).storage = Storage.absent
      ∨ (⟨Storage.absent, false⟩ : World).storage = Storage.unreadable)
    ∧ (_load_rate_limit_data "2024-01-02" ⟨Storage.absent, false⟩).1 =
        ⟨some "2024-01-02", 0, 0⟩ :=
  ⟨Or.inl rfl, (C4_amended "2024-01-02" ⟨Storage.absent, false⟩
    ⟨some "x", some 1, some 2⟩ (Or.inl rfl)).1⟩

/-- C5: `get_remaining_requests` returns
`max 0 (SAFE_REQUEST_LIMIT - request_count)` computed on the post-rollover
state; `SAFE_REQUEST_LIMIT = 9000` is strictly below
`DAILY_REQUEST_LIMIT = 10000` and equals 90% of it; and
`can_make_request` is true iff the remaining count is positive. -/
theorem C5_remaining_and_can_make (today : String) (s : RateState) (w : World) :
    (get_remaining_requests today s w).1 =
      max 0 (SAFE_REQUEST_LIMIT -
        (_check_and_reset_daily today s w).1.request_count)
    ∧ SAFE_REQUEST_LIMIT < DAILY_REQUEST_LIMIT
    ∧ 10 * SAFE_REQUEST_LIMIT = 9 * DAILY_REQUEST_LIMIT
    ∧ ((can_make_request today s w).1 = true ↔
        0 < (get_remaining_requests today s w).1) := by
  refine ⟨rfl, by norm_num [SAFE_REQUEST_LIMIT, DAILY_REQUEST_LIMIT],
    by norm_num [SAFE_REQUEST_LIMIT, DAILY_REQUEST_LIMIT], ?_⟩
  simp [can_make_request]

/-- C8: `increment_request_count` rolls the day, then advances the
in-memory `request_count` by exactly 1; the resulting in-memory state is
the same whether the persistence write succeeds or fails; when the write
fails the storage is untouched (the failure is only logged — the function
is total); when it succeeds the new state is persisted. -/
theorem C8_increment (today : String) (s : RateState) (w : World)
    (st : Storage) :
    (increment_request_count today s w).1.request_count =
      (_check_and_reset_daily today s w).1.request_count + 1
    ∧ (increment_request_count today s ⟨st, true⟩).1 =
        (increment_request_count today s ⟨st, false⟩).1
    ∧ (increment_request_count today s ⟨st, true⟩).2.storage = st
    ∧ (increment_request_count today s ⟨st, false⟩).2.storage =
        Storage.stored
          ⟨(increment_request_count today s ⟨st, false⟩).1.last_reset_date,
           some (increment_request_count today s ⟨st, false⟩).1.request_count,
           some (increment_request_count today s ⟨st, false⟩).1.device_count⟩ := by
  by_cases h : s.last_reset_date = some today
  · refine ⟨rfl, ?_, ?_, ?_⟩ <;>
      simp [increment_request_count, check_of_eq h, _save_rate_limit_data]
  · refine ⟨rfl, ?_, ?_, ?_⟩ <;>
      simp [increment_request_count, check_of_ne h, _reset_rate_limit_data,
        _save_rate_limit_data]

/-- C9: persistence round trip — saving a `QuotaState` whose date is a
string and whose counters are non-negative integers, then loading it back,
yields the identical state. -/
theorem C9_round_trip (today d : String) (rc dc : ℤ) (st : Storage)
    (h1 : 0 ≤ rc) (h2 : 0 ≤ dc) :
    (_load_rate_limit_data today
      (_save_rate_limit_data ⟨some d, rc, dc⟩ ⟨st, false⟩)).1 =
      ⟨some d, rc, dc⟩
    ∧ (_load_rate_limit_data today
      (_save_rate_limit_data ⟨some d, rc, dc⟩ ⟨st, false⟩)).2 =
      _save_rate_limit_data ⟨some d, rc, dc⟩ ⟨st, false⟩ := by
  exact ⟨rfl, rfl⟩

/-- C9 witness: round trip at a concrete state. -/
theorem C9_witness :
    (0 : ℤ) ≤ 5 ∧ (0 : ℤ) ≤ 3
    ∧ (_load_rate_limit_data "2024-01-02"
      (_save_rate_limit_data ⟨some "2024-01-01", 5, 3⟩
        ⟨Storage.absent, false⟩)).1 = ⟨some "2024-01-01", 5, 3⟩ :=
  ⟨by decide, by decide,
   (C9_round_trip "2024-01-02" "2024-01-01" 5 3 Storage.absent
     (by decide) (by decide)).1⟩

/-- C10: freshness invariant — after any public tracker operation returns,
the in-memory `last_reset_date` equals today's date, because every such
operation begins with `_check_and_reset_daily`. -/
theorem C10_freshness (today : String) (s : RateState) (w : World) (n : ℤ) :
    (increment_request_count today s w).1.last_reset_date = some today
    ∧ (update_device_count today n s w).1.last_reset_date = some today
    ∧ (get_remaining_requests today s w).2.1.last_reset_date = some today
    ∧ (get_usage_percentage today s w).2.1.last_reset_date = some today
    ∧ (can_make_request today s w).2.1.last_reset_date = some today
    ∧ (get_adaptive_polling_interval today s w).2.1.last_reset_date = some today
    ∧ (get_rate_limit_status today s w).2.1.last_reset_date = some today := by
  refine ⟨?_, ?_, ?_, ?_, ?_, ?_, ?_⟩
  · simp [increment_request_count, check_fst_date]
  · simp only [update_device_count]
    split_ifs <;> simp [check_fst_date]
  · simp [get_remaining_requests, check_fst_date]
  · simp [get_usage_percentage, check_fst_date]
  · simp [can_make_request, get_remaining_requests, check_fst_date]
  · rw [interval_state]; exact check_fst_date today s w
  · rw [status_state]; exact check_fst_date today s w

/-! ## Interval analysis -/

/-- The floor of the clamp of any rational lies within the clamp bounds. -/
lemma floor_clamp_mem (x : ℚ) :
    (60 : ℤ) ≤ ⌊max (60 : ℚ) (min 300 x)⌋ ∧ ⌊max (60 : ℚ) (min 300 x)⌋ ≤ 300 := by
  constructor
  · refine Int.le_floor.mpr ?_
    push_cast
    exact le_max_left _ _
  · have hle : max (60 : ℚ) (min 300 x) ≤ 300 :=
      max_le (by norm_num) (min_le_left _ _)
    have h := Int.floor_le_floor hle
    rwa [show ((300 : ℚ)) = ((300 : ℤ) : ℚ) by norm_num, Int.floor_intCast] at h

/-- Closed form of the interval value on the interesting branch:
positive device count and positive remaining quota. -/
lemma interval_value_pos (rc dc : ℤ) (hdc : 0 < dc)
    (hrem : 0 < max 0 (SAFE_REQUEST_LIMIT - rc)) :
    adaptive_interval_value rc dc =
      ⌊max (MIN_POLLING_INTERVAL : ℚ) (min (MAX_POLLING_INTERVAL : ℚ)
        (86400 / (((max 0 (SAFE_REQUEST_LIMIT - rc) : ℤ) : ℚ) / (dc : ℚ))))⌋ := by
  have hq : (0 : ℚ) <
      ((max 0 (SAFE_REQUEST_LIMIT - rc) : ℤ) : ℚ) / (dc : ℚ) :=
    div_pos (by exact_mod_cast hrem) (by exact_mod_cast hdc)
  simp only [adaptive_interval_value]
  rw [if_neg hdc.ne', if_neg (not_le.mpr hrem), if_pos hdc, if_pos hq]

/-- Whatever the counters, the adaptive interval value lies in
`[MIN_POLLING_INTERVAL, MAX_POLLING_INTERVAL] = [60, 300]` — the
off-branch constants 120 and 300 are also in range. -/
lemma interval_value_bounds (rc dc : ℤ) :
    MIN_POLLING_INTERVAL ≤ adaptive_interval_value rc dc
    ∧ adaptive_interval_value rc dc ≤ MAX_POLLING_INTERVAL := by
  by_cases h0 : dc = 0
  · subst h0
    simp only [adaptive_interval_value, if_pos rfl]
    norm_num [MIN_POLLING_INTERVAL, MAX_POLLING_INTERVAL, DEFAULT_POLLING_INTERVAL]
  by_cases h2 : max 0 (SAFE_REQUEST_LIMIT - rc) ≤ 0
  · have hv : adaptive_interval_value rc dc = MAX_POLLING_INTERVAL := by
      simp only [adaptive_interval_value]
      rw [if_neg h0, if_pos h2]
    rw [hv]
    norm_num [MIN_POLLING_INTERVAL, MAX_POLLING_INTERVAL]
  have hrem : 0 < max 0 (SAFE_REQUEST_LIMIT - rc) := lt_of_not_le h2
  by_cases hdc : 0 < dc
  · rw [interval_value_pos rc dc hdc hrem]
    have hf := floor_clamp_mem
      (86400 / (((max 0 (SAFE_REQUEST_LIMIT - rc) : ℤ) : ℚ) / (dc : ℚ)))
    constructor
    · simpa [MIN_POLLING_INTERVAL, MAX_POLLING_INTERVAL] using hf.1
    · simpa [MIN_POLLING_INTERVAL, MAX_POLLING_INTERVAL] using hf.2
  · have hv : adaptive_interval_value rc dc = DEFAULT_POLLING_INTERVAL := by
      simp only [adaptive_interval_value]
      rw [if_neg h0, if_neg (not_le.mpr hrem), if_neg hdc]
    rw [hv]
    norm_num [MIN_POLLING_INTERVAL, MAX_POLLING_INTERVAL, DEFAULT_POLLING_INTERVAL]

/-- Monotonicity of the interval value in the request count. -/
lemma interval_value_mono (dc rc1 rc2 : ℤ) (hle : rc1 ≤ rc2) :
    adaptive_interval_value rc1 dc ≤ adaptive_interval_value rc2 dc := by
  have hrr : max 0 (SAFE_REQUEST_LIMIT - rc2) ≤
      max 0 (SAFE_REQUEST_LIMIT - rc1) :=
    max_le_max le_rfl (sub_le_sub_left hle _)
  by_cases h0 : dc = 0
  · subst h0
    simp [adaptive_interval_value]
  by_cases h2 : max 0 (SAFE_REQUEST_LIMIT - rc2) ≤ 0
  · have hv2 : adaptive_interval_value rc2 dc = MAX_POLLING_INTERVAL := by
      unfold adaptive_interval_value
      rw [if_neg h0, if_pos h2]
    rw [hv2]
    exact (interval_value_bounds rc1 dc).2
  have hrem2 : 0 < max 0 (SAFE_REQUEST_LIMIT - rc2) := lt_of_not_le h2
  have hrem1 : 0 < max 0 (SAFE_REQUEST_LIMIT - rc1) := lt_of_lt_of_le hrem2 hrr
  by_cases hdc : 0 < dc
  · rw [interval_value_pos rc1 dc hdc hrem1, interval_value_pos rc2 dc hdc hrem2]
    apply Int.floor_le_floor
    apply max_le_max le_rfl
    apply min_le_min le_rfl
    have hdcq : (0 : ℚ) < (dc : ℚ) := by exact_mod_cast hdc
    have hq2 : (0 : ℚ) <
        ((max 0 (SAFE_REQUEST_LIMIT - rc2) : ℤ) : ℚ) / (dc : ℚ) :=
      div_pos (by exact_mod_cast hrem2) hdcq
    apply div_le_div_of_nonneg_left (by norm_num) hq2
    exact (div_le_div_right hdcq).mpr (by exact_mod_cast hrr)
  · have hv : ∀ rc : ℤ, 0 < max 0 (SAFE_REQUEST_LIMIT - rc) →
        adaptive_interval_value rc dc = DEFAULT_POLLING_INTERVAL := by
      intro rc hrem
      unfold adaptive_interval_value
      rw [if_neg h0, if_neg (not_le.mpr hrem), if_neg hdc]
    rw [hv rc1 hrem1, hv rc2 hrem2]

/-- For non-negative device counts the code's interval agrees with the
spec's pure formula (`specAdaptiveInterval`). -/
lemma interval_value_eq_spec (s : RateState) (hdc : 0 ≤ s.device_count) :
    adaptive_interval_value s.request_count s.device_count =
      specAdaptiveInterval s := by
  by_cases h0 : s.device_count = 0
  · simp [adaptive_interval_value, specAdaptiveInterval, h0]
  have hdcpos : 0 < s.device_count := lt_of_le_of_ne hdc (Ne.symm h0)
  by_cases h2 : max 0 (SAFE_REQUEST_LIMIT - s.request_count) ≤ 0
  · simp only [adaptive_interval_value, specAdaptiveInterval]
    rw [if_neg h0, if_pos h2, if_neg h0, if_pos h2]
  have hrem : 0 < max 0 (SAFE_REQUEST_LIMIT - s.request_count) :=
    lt_of_not_le h2
  rw [interval_value_pos _ _ hdcpos hrem]
  simp only [specAdaptiveInterval]
  rw [if_neg h0, if_neg h2]

/-- C2: on an up-to-date state with a non-negative device count (as the
data model requires), `get_adaptive_polling_interval` computes exactly the
spec's function of QuotaState — default 120 with no devices, 300 when the
quota is exhausted, otherwise `int(clamp(86400 / (remaining /
device_count), 60, 300))` — and at `device_count = 10`,
`request_count = 0` it returns 96. -/
theorem C2_interval_eq_spec (today : String) (s : RateState) (w : World)
    (h : s.last_reset_date = some today) (hdc : 0 ≤ s.device_count) :
    (get_adaptive_polling_interval today s w).1 = specAdaptiveInterval s
    ∧ specAdaptiveInterval ⟨some today, 0, 10⟩ = 96
    ∧ (get_adaptive_polling_interval today ⟨some today, 0, 10⟩ w).1 = 96 := by
  refine ⟨?_, ?_, ?_⟩
  · rw [interval_of_eq h]
    exact interval_value_eq_spec s hdc
  · norm_num [specAdaptiveInterval, SAFE_REQUEST_LIMIT, MIN_POLLING_INTERVAL,
      MAX_POLLING_INTERVAL]
  · rw [interval_of_eq rfl]
    norm_num [adaptive_interval_value, SAFE_REQUEST_LIMIT, MIN_POLLING_INTERVAL,
      MAX_POLLING_INTERVAL]

/-- C2 witness: the concrete scenario `device_count = 10`,
`request_count = 0` on `"2024-01-02"`. -/
theorem C2_witness :
    ((⟨some "2024-01-02", 0, 10⟩ : RateState).last_reset_date =
      some "2024-01-02")
    ∧ (0 : ℤ) ≤ (⟨some "2024-01-02", 0, 10⟩ : RateState).device_count
    ∧ (get_adaptive_polling_interval "2024-01-02" ⟨some "2024-01-02", 0, 10⟩
        ⟨Storage.absent, false⟩).1 =
      specAdaptiveInterval ⟨some "2024-01-02", 0, 10⟩ :=
  ⟨rfl, by decide,
   (C2_interval_eq_spec "2024-01-02" ⟨some "2024-01-02", 0, 10⟩
     ⟨Storage.absent, false⟩ rfl (by decide)).1⟩

/-- C6: on an up-to-date state with at least one device and at least one
remaining request, the adaptive interval lies in `[60, 300]`; in
particular at `device_count = 1`, `request_count = 8999` the raw interval
86400 is clamped to 300. -/
theorem C6_interval_bounds (today : String) (s : RateState) (w : World)
    (h : s.last_reset_date = some today)
    (hdc : 1 ≤ s.device_count)
    (hrem : 1 ≤ max 0 (SAFE_REQUEST_LIMIT - s.request_count)) :
    MIN_POLLING_INTERVAL ≤ (get_adaptive_polling_interval today s w).1
    ∧ (get_adaptive_polling_interval today s w).1 ≤ MAX_POLLING_INTERVAL
    ∧ (get_adaptive_polling_interval today ⟨some today, 8999, 1⟩ w).1 = 300 := by
  rw [interval_of_eq h, interval_of_eq rfl]
  refine ⟨(interval_value_bounds _ _).1, (interval_value_bounds _ _).2, ?_⟩
  norm_num [adaptive_interval_value, SAFE_REQUEST_LIMIT, MIN_POLLING_INTERVAL,
    MAX_POLLING_INTERVAL]

/-- C6 witness: bounds at `device_count = 1`, `request_count = 8999`. -/
theorem C6_witness :
    ((⟨some "2024-01-02", 8999, 1⟩ : RateState).last_reset_date =
      some "2024-01-02")
    ∧ (1 : ℤ) ≤ (⟨some "2024-01-02", 8999, 1⟩ : RateState).device_count
    ∧ (1 : ℤ) ≤ max 0 (SAFE_REQUEST_LIMIT - 8999)
    ∧ MIN_POLLING_INTERVAL ≤
        (get_adaptive_polling_interval "2024-01-02" ⟨some "2024-01-02", 8999, 1⟩
          ⟨Storage.absent, false⟩).1 :=
  ⟨rfl, by decide, by decide,
   (C6_interval_bounds "2024-01-02" ⟨some "2024-01-02", 8999, 1⟩
     ⟨Storage.absent, false⟩ rfl (by decide) (by decide)).1⟩

/-- C7: for a fixed device count, increasing the request count never
decreases the adaptive polling interval. -/
theorem C7_interval_monotone (today : String) (w1 w2 : World)
    (dc rc1 rc2 : ℤ) (hle : rc1 ≤ rc2) :
    (get_adaptive_polling_interval today ⟨some today, rc1, dc⟩ w1).1 ≤
      (get_adaptive_polling_interval today ⟨some today, rc2, dc⟩ w2).1 := by
  rw [interval_of_eq rfl, interval_of_eq rfl]
  exact interval_value_mono dc rc1 rc2 hle

/-- C7 witness: monotonicity at `device_count = 10`,
`request_count` 0 versus 8500. -/
theorem C7_witness :
    (0 : ℤ) ≤ 8500
    ∧ (get_adaptive_polling_interval "2024-01-02"
        ⟨some "2024-01-02", 0, 10⟩ ⟨Storage.absent, false⟩).1 ≤
      (get_adaptive_polling_interval "2024-01-02"
        ⟨some "2024-01-02", 8500, 10⟩ ⟨Storage.absent, false⟩).1 :=
  ⟨by decide,
   C7_interval_monotone "2024-01-02" ⟨Storage.absent, false⟩
     ⟨Storage.absent, false⟩ 10 0 8500 (by decide)⟩
